import Mathlib

/-!
Shallow embedding of the cancellation / timeout core of `nestjs-aborter`:
the interceptor (`src/interceptors/aborter.interceptor.ts`) and the
promise-wrapping helper (`src/utils/index.ts`).

Modelling conventions:
* TypeScript `undefined` is `Option.none`; an explicit `null` inside a
  `number | null` position is modelled with a nested `Option`.
* TypeScript truthiness: a number is falsy iff it is `0`; a string is
  falsy iff it is `""`; `undefined`/`null` are falsy.
* The per-request cancellation handle is the `AbortController` /
  `AbortSignal` pair together with the `request.abortReason` mirror
  field; its mutable parts are collected in `HandleState`.
* Observable branches of the `race` are modelled by their effect on the
  handle state and by the error value they emit.
-/

/-- TS `a || b` for an optional string `a`: `a` when it is a truthy
(non-empty) string, otherwise `b`. -/
def tsOrStr (a : Option String) (b : String) : String :=
  match a with
  | none => b
  | some s => if s = "" then b else s

/-- Truthiness of an optional string (`undefined` and `""` are falsy). -/
def strTruthy (a : Option String) : Bool :=
  match a with
  | none => false
  | some s => s != ""

/-- Truthiness of an optional number (`undefined` and `0` are falsy). -/
def intTruthy (a : Option Int) : Bool :=
  match a with
  | none => false
  | some n => n != 0

/-- The `AborterOptions` configuration object
(`src/interfaces/aborter.interface.ts`).  The `logger` callback may
throw, which we model as returning `Except String Unit`. -/
structure AborterOptions where
  timeout : Option Int := none
  reason : Option String := none
  enableLogging : Bool := false
  logger : Option (String → Except String Unit) := none
  skipRoutes : Option (List String) := none
  skipMethods : Option (List String) := none

/-- `getEffectiveTimeout` from the interceptor: the reflector value
`routeTimeout : number | null | undefined` is `Option (Option Int)`
(outer `none` = `undefined`, `some none` = `null`), the global
`options.timeout` is `Option Int`.  The code returns `routeTimeout`
whenever it is not `undefined`, else `options.timeout ?? null`; the
result `number | null` is `Option Int` with `none` = no timeout. -/
def getEffectiveTimeout (routeTimeout : Option (Option Int))
    (globalTimeout : Option Int) : Option Int :=
  match routeTimeout with
  | some v => v
  | none => globalTimeout

/-- Mutable state of one request's cancellation handle: the
`AbortSignal`'s `aborted` flag and `reason`, the `request.abortReason`
mirror, and whether the `close` / `error` transport listeners are
currently registered. -/
structure HandleState where
  aborted : Bool
  signalReason : Option String
  requestAbortReason : Option String
  closeRegistered : Bool
  errorRegistered : Bool
deriving DecidableEq

/-- Handle state right after `attachAbortController` and
`setupRequestCleanup` have run: fresh signal, both listeners on. -/
def initHandle : HandleState :=
  { aborted := false, signalReason := none, requestAbortReason := none
    closeRegistered := true, errorRegistered := true }

/-- `AbortController.abort(reason)` semantics: a no-op when the signal
is already aborted, otherwise sets `aborted` and the signal reason. -/
def controllerAbort (reason : String) (s : HandleState) : HandleState :=
  if s.aborted then s
  else { s with aborted := true, signalReason := some reason }

/-- The `abort` closure of `setupRequestCleanup`: returns early when the
signal is already aborted; otherwise resolves the reason through
`reason || options.reason || 'Request terminated'`, stores it on the
request and aborts the controller with it. -/
def abortFn (opts : AborterOptions) (reason : Option String)
    (s : HandleState) : HandleState :=
  if s.aborted then s
  else
    let abortReason := tsOrStr reason (tsOrStr opts.reason "Request terminated")
    { s with aborted := true, signalReason := some abortReason
             requestAbortReason := some abortReason }

/-- The `closeHandler`: a `close` transport event runs
`abort('Client disconnected')` when the listener is registered. -/
def closeEvent (opts : AborterOptions) (s : HandleState) : HandleState :=
  if s.closeRegistered then abortFn opts (some "Client disconnected") s else s

/-- The `errorHandler`: an `error` transport event runs
`abort('Request error: ' + message)` when the listener is registered. -/
def errorEvent (opts : AborterOptions) (msg : String)
    (s : HandleState) : HandleState :=
  if s.errorRegistered then abortFn opts (some s!"Request error: {msg}") s else s

/-- Reason string built by the timeout branch of the race. -/
def timeoutReason (ms : Int) : String :=
  s!"Request timed out after {ms}ms"

/-- Effect of the timeout branch firing (`createTimeoutObservable`'s
`mergeMap` body): unconditionally overwrites `request.abortReason`,
then calls `abortController.abort(reason)`. -/
def timeoutFire (ms : Int) (s : HandleState) : HandleState :=
  controllerAbort (timeoutReason ms)
    { s with requestAbortReason := some (timeoutReason ms) }

/-- State effect of the `cleanup` function returned by
`setupRequestCleanup` when its logging step returns normally: calls
`abort(reason || '')` and unregisters both transport listeners.  The
general model including the logging error path is `cleanupRun` below;
the two agree on `aborted`, `signalReason` and `requestAbortReason` on
every path (`cleanupRun_agrees_cleanupCall`), which are the fields the
fire-path analysis is about. -/
def cleanupCall (opts : AborterOptions) (reason : Option String)
    (s : HandleState) : HandleState :=
  let s1 := abortFn opts (some (tsOrStr reason "")) s
  { s1 with closeRegistered := false, errorRegistered := false }

/-- The paths that can fire (or attempt to fire) a request's handle. -/
inductive FireEvent where
  | internalAbort (reason : Option String)
  | close
  | transportError (msg : String)
  | timeoutElapsed (ms : Int)
  | cleanup (reason : Option String)

/-- One fire attempt acting on the handle state. -/
def fireStep (opts : AborterOptions) (s : HandleState)
    (e : FireEvent) : HandleState :=
  match e with
  | .internalAbort r => abortFn opts r s
  | .close => closeEvent opts s
  | .transportError m => errorEvent opts m s
  | .timeoutElapsed ms => timeoutFire ms s
  | .cleanup r => cleanupCall opts r s

/-- Error values the interceptor's race branches and the `withAbort`
helper can surface: `RequestTimeoutException` (the interceptor) and
`AbortError` (the helper). -/
inductive HttpError where
  | requestTimeoutException (message : String)
  | abortError (message : String)
deriving DecidableEq

/-- Reason observed by `createAbortObservable`'s abort listener:
`request.abortReason || 'Request aborted'`. -/
def abortObservableReason (s : HandleState) : String :=
  tsOrStr s.requestAbortReason "Request aborted"

/-- Error emitted by the cancellation branch when the signal fires:
`new RequestTimeoutException(request.abortReason || 'Request aborted')`. -/
def abortObservableError (s : HandleState) : HttpError :=
  .requestTimeoutException (abortObservableReason s)

/-- Static shape of the timeout branch: either the always-pending
`new Observable()` or a branch that fires after `ms` milliseconds. -/
inductive TimeoutBranch where
  | never
  | firesAfter (ms : Int)
deriving DecidableEq

/-- Falsiness of the `number | null` value `effectiveTimeout`. -/
def intFalsy (a : Option Int) : Bool :=
  match a with
  | none => true
  | some n => n == 0

/-- `createTimeoutObservable`: returns the never-emitting observable
when `!effectiveTimeout || effectiveTimeout <= 0`, else a timer branch
that fires after `effectiveTimeout` ms. -/
def createTimeoutObservable (effectiveTimeout : Option Int) : TimeoutBranch :=
  if intFalsy effectiveTimeout || effectiveTimeout.getD 0 ≤ 0 then .never
  else .firesAfter (effectiveTimeout.getD 0)

/-- Error emitted by the timeout branch when it fires. -/
def timeoutBranchError (ms : Int) : HttpError :=
  .requestTimeoutException (timeoutReason ms)

/-- JavaScript's `toUpperCase()` on the ASCII method strings involved,
written so it reduces structurally (core `String.map` is well-founded
recursive). -/
def jsToUpperCase (s : String) : String :=
  ⟨s.data.map Char.toUpper⟩

/-- `shouldSkipRoute`, abstracted over JavaScript regular-expression
matching (`rmatch path pattern` stands for
`path.match(new RegExp(pattern))` being non-null): some skip pattern
matches the path, or `skipMethods` contains the uppercased method. -/
def shouldSkipRoute (rmatch : String → String → Bool)
    (path method : String) (opts : AborterOptions) : Bool :=
  let skipRoutes := opts.skipRoutes.getD []
  let skipMethods := opts.skipMethods.getD []
  if skipRoutes.any (fun route => rmatch path route) then true
  else if skipMethods.contains (jsToUpperCase method) then true
  else false

/-- Modelled from the spec (§4.3 / C7) for comparison: exemption with
fully case-insensitive method matching, i.e. some configured method
name equals the request method after uppercasing both sides. -/
def shouldSkipRouteSpec (rmatch : String → String → Bool)
    (path method : String) (opts : AborterOptions) : Bool :=
  (opts.skipRoutes.getD []).any (fun route => rmatch path route) ||
    (opts.skipMethods.getD []).any
      (fun m => jsToUpperCase m == jsToUpperCase method)

/-- Whether `intercept` attaches a handle to the request: it returns
`next.handle()` untouched (no `AbortController` attached) exactly when
`shouldSkipRoute` is true. -/
def interceptAttachesHandle (rmatch : String → String → Bool)
    (path method : String) (opts : AborterOptions) : Bool :=
  !(shouldSkipRoute rmatch path method opts)

/-- The log message built by `logAbort`. -/
def logMessage (typ method path reason : String) : String :=
  s!"[{typ.toUpper}] {method} {path} - {reason}"

/-- `logAbort`: returns without logging when `enableLogging` is off;
otherwise invokes the custom logger when one is configured (its
exception, if any, propagates — there is no try/catch) and otherwise
the framework logger's `warn`, which does not throw. -/
def logAbort (opts : AborterOptions) (typ method path reason : String) :
    Except String Unit :=
  if !opts.enableLogging then .ok ()
  else
    match opts.logger with
    | some f => f (logMessage typ method path reason)
    | none => .ok ()

/-- A custom logger that always throws. -/
def throwingLogger : String → Except String Unit :=
  fun _ => .error "logger failure"

/-- Options enabling logging through the throwing custom logger. -/
def throwingLoggerOptions : AborterOptions :=
  { enableLogging := true, logger := some throwingLogger }

/-- The abort reason a cleanup call resolves: cleanup passes
`reason || ''` into `abort`, which applies
`reason || options.reason || 'Request terminated'`. -/
def cleanupReason (opts : AborterOptions) (reason : Option String) : String :=
  tsOrStr (some (tsOrStr reason "")) (tsOrStr opts.reason "Request terminated")

/-- The `abort` closure of `setupRequestCleanup` including its trailing
`this.logAbort('cleanup', request, abortReason)` call, which has no
try/catch: the state mutations (`request.abortReason`,
`abortController.abort`) run first, then `logAbort`, whose exception,
if any, propagates to the caller.  Returns the new handle state
together with the propagated exception (`none` on normal return). -/
def abortCall (opts : AborterOptions) (method path : String)
    (reason : Option String) (s : HandleState) : HandleState × Option String :=
  if s.aborted then (s, none)
  else
    let abortReason := tsOrStr reason (tsOrStr opts.reason "Request terminated")
    let s1 := { s with aborted := true, signalReason := some abortReason
                       requestAbortReason := some abortReason }
    match logAbort opts "cleanup" method path abortReason with
    | .ok _ => (s1, none)
    | .error e => (s1, some e)

/-- The cleanup function with its logging error path: `abort(reason || '')`
runs first, and an exception thrown by a custom logger propagates
before the `request.off` lines are reached, leaving both listeners
registered; only on normal return are both listeners unregistered.
(`cleanupCall` above is the state effect of the normal-return case;
`cleanupRun_agrees_cleanupCall` shows the two agree on the handle's
`aborted` / reason fields on every path.) -/
def cleanupRun (opts : AborterOptions) (method path : String)
    (reason : Option String) (s : HandleState) : HandleState × Option String :=
  match abortCall opts method path (some (tsOrStr reason "")) s with
  | (s1, some e) => (s1, some e)
  | (s1, none) =>
      ({ s1 with closeRegistered := false, errorRegistered := false }, none)

/-- The ambient `AbortSignal` as seen by `withAbort`
(`src/utils/index.ts`): `aborted`, `reason`, and the `_requestTimeout`
field written by the interceptor. -/
structure GuardSignal where
  aborted : Bool
  reason : Option String
  requestTimeout : Option Int
deriving DecidableEq

/-- `WithAbortOptions` of `src/utils/index.ts`. -/
structure WithAbortOptions where
  timeout : Option Int := none
  timeoutMessage : Option String := none
deriving DecidableEq

/-- The message of the configuration `Error` thrown by `withAbort`. -/
def configErrorMessage (opTimeout reqTimeout : Int) : String :=
  s!"Operation timeout ({opTimeout}ms) cannot exceed request timeout ({reqTimeout}ms). Use @RequestTimeout({opTimeout}) decorator to increase the request timeout."

/-- `new AbortError(signal.reason ? String(signal.reason) : undefined)`
followed by `AbortError`'s `reason || 'Operation aborted'` default. -/
def abortErrorMessage (reason : Option String) : String :=
  tsOrStr reason "Operation aborted"

/-- How a call to `withAbort` resolves, up to (but not into) the
asynchronous race: a synchronous throw of the configuration `Error`, a
passthrough of the original promise, an immediately rejected promise,
or the deferred race of promise / signal / internal timer. -/
inductive WithAbortOutcome where
  | configError (message : String)
  | passthrough
  | rejected (error : HttpError)
  | race
deriving DecidableEq

/-- The synchronous control flow of `withAbort promise signal options`:
1. `options?.timeout && signal?._requestTimeout` both truthy and
   `options.timeout > signal._requestTimeout` → throw (configError);
2. `!signal && !options?.timeout` → return the promise unchanged;
3. `signal?.aborted` → `Promise.reject(new AbortError(...))`;
4. otherwise → the race promise. -/
def withAbort (signal : Option GuardSignal)
    (options : Option WithAbortOptions) : WithAbortOutcome :=
  let opTimeout : Option Int := options.bind (fun o => o.timeout)
  let reqTimeout : Option Int := signal.bind (fun s => s.requestTimeout)
  if intTruthy opTimeout && intTruthy reqTimeout &&
      opTimeout.getD 0 > reqTimeout.getD 0 then
    .configError (configErrorMessage (opTimeout.getD 0) (reqTimeout.getD 0))
  else if signal.isNone && !intTruthy opTimeout then
    .passthrough
  else if (signal.map (fun s => s.aborted)).getD false then
    .rejected (.abortError (abortErrorMessage (signal.bind (fun s => s.reason))))
  else
    .race

/-! ## Helper lemmas -/

/-- Any fire attempt on an already-aborted handle leaves `aborted` true
and the signal reason untouched. -/
lemma fireStep_aborted_preserved (opts : AborterOptions) (s : HandleState)
    (e : FireEvent) (h : s.aborted = true) :
    (fireStep opts s e).aborted = true ∧
    (fireStep opts s e).signalReason = s.signalReason := by
  cases e <;>
    simp [fireStep, abortFn, closeEvent, errorEvent, timeoutFire,
      cleanupCall, controllerAbort, h]

/-- Folding any list of fire attempts over an aborted handle keeps
`aborted` true and the signal reason unchanged. -/
lemma foldl_fireStep_aborted (opts : AborterOptions) (es : List FireEvent)
    (s : HandleState) (h : s.aborted = true) :
    (es.foldl (fireStep opts) s).aborted = true ∧
    (es.foldl (fireStep opts) s).signalReason = s.signalReason := by
  induction es generalizing s with
  | nil => exact ⟨h, rfl⟩
  | cons e es ih =>
      obtain ⟨h1, h2⟩ := fireStep_aborted_preserved opts s e h
      obtain ⟨h3, h4⟩ := ih (fireStep opts s e) h1
      exact ⟨h3, h4.trans h2⟩

/-- A fire attempt that actually aborts a live handle sets a signal
reason. -/
lemma fireStep_fired_reason_isSome (opts : AborterOptions) (s : HandleState)
    (e : FireEvent) (h : s.aborted = false)
    (hf : (fireStep opts s e).aborted = true) :
    (fireStep opts s e).signalReason.isSome = true := by
  cases e <;>
    simp only [fireStep, abortFn, closeEvent, errorEvent, timeoutFire,
      cleanupCall, controllerAbort, h] at hf ⊢ <;>
    split at hf <;> simp_all

/-- The throw-aware cleanup model and `cleanupCall` agree on the
handle's `aborted`, `signalReason` and `requestAbortReason` fields on
every path (they differ only in the listener flags when the logging
step throws). -/
lemma cleanupRun_agrees_cleanupCall (opts : AborterOptions)
    (method path : String) (reason : Option String) (s : HandleState) :
    (cleanupRun opts method path reason s).1.aborted =
      (cleanupCall opts reason s).aborted ∧
    (cleanupRun opts method path reason s).1.signalReason =
      (cleanupCall opts reason s).signalReason ∧
    (cleanupRun opts method path reason s).1.requestAbortReason =
      (cleanupCall opts reason s).requestAbortReason := by
  by_cases hab : s.aborted
  · simp [cleanupRun, abortCall, cleanupCall, abortFn, hab]
  · simp only [cleanupRun, abortCall, cleanupCall, abortFn, hab,
      Bool.false_eq_true, if_false]
    cases logAbort opts "cleanup" method path
        (tsOrStr (some (tsOrStr reason ""))
          (tsOrStr opts.reason "Request terminated")) <;> simp

/-- A cleanup call on a live handle fires it with the resolved cleanup
reason, whether or not the logging step throws. -/
lemma cleanupRun_fires_live (opts : AborterOptions) (method path : String)
    (reason : Option String) (s : HandleState) (hab : s.aborted = false) :
    (cleanupRun opts method path reason s).1.aborted = true ∧
    (cleanupRun opts method path reason s).1.signalReason =
      some (cleanupReason opts reason) := by
  simp only [cleanupRun, abortCall, cleanupReason, hab, Bool.false_eq_true,
    if_false]
  cases logAbort opts "cleanup" method path
      (tsOrStr (some (tsOrStr reason ""))
        (tsOrStr opts.reason "Request terminated")) <;> simp

/-- A cleanup call on an already-aborted handle never logs, never
throws, and just unregisters both listeners. -/
lemma cleanupRun_of_aborted (opts : AborterOptions) (method path : String)
    (reason : Option String) (s : HandleState) (hab : s.aborted = true) :
    cleanupRun opts method path reason s =
      ({ s with closeRegistered := false, errorRegistered := false }, none) := by
  simp [cleanupRun, abortCall, hab]

/-- Shared helper: whenever `options.timeout` and `signal._requestTimeout`
are set with a positive request timeout exceeded by the operation
timeout, `withAbort` throws the configuration error. -/
lemma withAbort_configError_of (sig : GuardSignal) (o : WithAbortOptions)
    (t r : Int) (ht : o.timeout = some t) (hr : sig.requestTimeout = some r)
    (hrpos : 0 < r) (hgt : r < t) :
    withAbort (some sig) (some o) = .configError (configErrorMessage t r) := by
  have hr0 : r ≠ 0 := by omega
  have ht0 : t ≠ 0 := by omega
  simp [withAbort, ht, hr, intTruthy, hr0, ht0, hgt]

/-! ## Claims -/

/-- C1: firing a cancellation handle is idempotent.  Whichever fire
path (internal abort, disconnect/error observer, timeout branch,
cleanup) first aborts a live handle sets the signal reason; any further
sequence of fire attempts with arbitrary (in particular different)
reasons keeps `aborted` true and never changes the retained reason. -/
theorem handle_fire_idempotent (opts : AborterOptions) (s : HandleState)
    (e : FireEvent) (es : List FireEvent) (h : s.aborted = false)
    (hf : (fireStep opts s e).aborted = true) :
    (fireStep opts s e).signalReason.isSome = true ∧
    (es.foldl (fireStep opts) (fireStep opts s e)).aborted = true ∧
    (es.foldl (fireStep opts) (fireStep opts s e)).signalReason =
      (fireStep opts s e).signalReason := by
  refine ⟨fireStep_fired_reason_isSome opts s e h hf, ?_, ?_⟩
  · exact (foldl_fireStep_aborted opts es (fireStep opts s e) hf).1
  · exact (foldl_fireStep_aborted opts es (fireStep opts s e) hf).2

/-- Witness for C1: a fresh handle fired by a disconnect, then hit by a
timeout attempt and a cleanup with other reasons. -/
theorem handle_fire_idempotent_witness :
    (initHandle.aborted = false ∧
      (fireStep {} initHandle FireEvent.close).aborted = true) ∧
    (fireStep {} initHandle FireEvent.close).signalReason.isSome = true ∧
    (([FireEvent.timeoutElapsed 5, FireEvent.cleanup none].foldl
        (fireStep {}) (fireStep {} initHandle FireEvent.close)).aborted = true ∧
      ([FireEvent.timeoutElapsed 5, FireEvent.cleanup none].foldl
        (fireStep {}) (fireStep {} initHandle FireEvent.close)).signalReason =
        (fireStep {} initHandle FireEvent.close).signalReason) :=
  ⟨⟨rfl, rfl⟩, handle_fire_idempotent {} initHandle FireEvent.close
    [FireEvent.timeoutElapsed 5, FireEvent.cleanup none] rfl rfl⟩

/-- C2: effective-timeout precedence.  A route-level `null` resolves to
no timeout, a route-level number (including `0`) is returned as is, and
an unset route timeout falls back to the global value (which is `none`,
i.e. no timeout, when unset). -/
theorem getEffectiveTimeout_precedence (g : Option Int) (n : Int) :
    getEffectiveTimeout (some none) g = none ∧
    getEffectiveTimeout (some (some n)) g = some n ∧
    getEffectiveTimeout none g = g :=
  ⟨rfl, rfl, rfl⟩

/-- C3: when both the operation timeout and the handle's (positive)
request timeout are set and the former is strictly greater, `withAbort`
throws the configuration error synchronously — the outcome is
`configError`, not `passthrough`, `rejected` or `race`, so the wrapped
operation is never awaited. -/
theorem withAbort_budget_config_error (sig : GuardSignal)
    (o : WithAbortOptions) (t r : Int) (ht : o.timeout = some t)
    (hr : sig.requestTimeout = some r) (hrpos : 0 < r) (hgt : r < t) :
    withAbort (some sig) (some o) = .configError (configErrorMessage t r) :=
  withAbort_configError_of sig o t r ht hr hrpos hgt

/-- A live signal carrying a 1000ms request timeout. -/
def liveCappedSig : GuardSignal :=
  { aborted := false, reason := none, requestTimeout := some 1000 }

/-- An aborted signal with reason `boom` and no request timeout. -/
def abortedSig : GuardSignal :=
  { aborted := true, reason := some "boom", requestTimeout := none }

/-- An aborted signal that also carries a 1000ms request timeout. -/
def abortedCappedSig : GuardSignal :=
  { aborted := true, reason := some "boom", requestTimeout := some 1000 }

/-- Guard options asking for a 2000ms operation timeout. -/
def bigOpOptions : WithAbortOptions := { timeout := some 2000 }

/-- Witness for C3: request timeout 1000ms, operation timeout 2000ms. -/
theorem withAbort_budget_config_error_witness :
    withAbort (some liveCappedSig) (some bigOpOptions) =
      .configError (configErrorMessage 2000 1000) :=
  withAbort_budget_config_error liveCappedSig bigOpOptions 2000 1000
    rfl rfl (by decide) (by decide)

/-- C4: when the signal is already aborted and the budget validation
does not trigger, `withAbort` resolves immediately with an `AbortError`
rejection carrying the signal's reason (defaulted to
`Operation aborted` for a falsy reason); the wrapped operation is never
awaited. -/
theorem withAbort_already_aborted (sig : GuardSignal)
    (options : Option WithAbortOptions) (hab : sig.aborted = true)
    (hok : ¬(intTruthy (options.bind fun o => o.timeout) = true ∧
        intTruthy sig.requestTimeout = true ∧
        (options.bind fun o => o.timeout).getD 0 >
          sig.requestTimeout.getD 0)) :
    withAbort (some sig) options =
      .rejected (.abortError (abortErrorMessage sig.reason)) := by
  simp only [withAbort]
  rw [if_neg ?hc1, if_neg ?hc2, if_pos ?hc3]
  · rfl
  case hc1 =>
    intro hcond
    rw [Bool.and_eq_true, Bool.and_eq_true] at hcond
    exact hok ⟨hcond.1.1, hcond.1.2, of_decide_eq_true hcond.2⟩
  case hc2 => simp
  case hc3 => simp [hab]

/-- Witness for C4: an aborted signal with reason `boom`, no options. -/
theorem withAbort_already_aborted_witness :
    withAbort (some abortedSig) none =
      .rejected (.abortError (abortErrorMessage abortedSig.reason)) :=
  withAbort_already_aborted abortedSig none rfl (by simp [abortedSig, intTruthy])

/-- C5: a falsy (`null`/unset/`0`) or negative effective timeout makes
`createTimeoutObservable` return the always-pending observable
(`TimeoutBranch.never`), which emits nothing, errors nothing and never
touches the handle. -/
theorem createTimeoutObservable_never (t : Option Int)
    (h : t = none ∨ ∃ n : Int, t = some n ∧ n ≤ 0) :
    createTimeoutObservable t = .never := by
  rcases h with h | ⟨n, rfl, hn⟩
  · subst h; rfl
  · simp [createTimeoutObservable, intFalsy, hn]

/-- Witness for C5: a negative effective timeout. -/
theorem createTimeoutObservable_never_witness :
    createTimeoutObservable (some (-5)) = .never :=
  createTimeoutObservable_never (some (-5))
    (Or.inr ⟨-5, rfl, by decide⟩)

/-- Counterexample for C6: with logging enabled through a throwing
custom logger, the first cleanup call fires the handle but the logger's
exception propagates out of `abort` before the `request.off` lines run,
so both transport listeners stay registered — and the second call is
not a no-op (it unregisters them). -/
theorem cleanup_throwing_logger_counterexample :
    (cleanupRun throwingLoggerOptions "GET" "/test" (some "x")
        initHandle).2 = some "logger failure" ∧
    (cleanupRun throwingLoggerOptions "GET" "/test" (some "x")
        initHandle).1.closeRegistered = true ∧
    (cleanupRun throwingLoggerOptions "GET" "/test" (some "x")
        initHandle).1.errorRegistered = true ∧
    (cleanupRun throwingLoggerOptions "GET" "/test" (some "x")
        (cleanupRun throwingLoggerOptions "GET" "/test" (some "x")
          initHandle).1).1 ≠
      (cleanupRun throwingLoggerOptions "GET" "/test" (some "x")
        initHandle).1 := by
  refine ⟨rfl, rfl, rfl, ?_⟩
  decide

/-- C6 (amended): any sequence of cleanup calls fires a live handle at
most once, with the first call's reason when supplied, else
`options.reason`, else `Request terminated`; by the second call the
handle is aborted with that same reason, nothing is thrown, and both
transport observers are unregistered.  When the first call's logging
step returns normally (in particular when logging is disabled or no
custom logger is configured), the first call already unregisters both
observers and later calls are exact no-ops; only a throwing custom
logger delays the unregistration to the next call. -/
theorem cleanup_idempotent_unless_logger_throws (opts : AborterOptions)
    (method path : String) (r1 r2 : Option String) (s : HandleState)
    (hab : s.aborted = false) :
    (cleanupRun opts method path r1 s).1.aborted = true ∧
    (cleanupRun opts method path r1 s).1.signalReason =
      some (cleanupReason opts r1) ∧
    (cleanupRun opts method path r2
        (cleanupRun opts method path r1 s).1).1.signalReason =
      some (cleanupReason opts r1) ∧
    (cleanupRun opts method path r2
        (cleanupRun opts method path r1 s).1).2 = none ∧
    (cleanupRun opts method path r2
        (cleanupRun opts method path r1 s).1).1.closeRegistered = false ∧
    (cleanupRun opts method path r2
        (cleanupRun opts method path r1 s).1).1.errorRegistered = false ∧
    (logAbort opts "cleanup" method path (cleanupReason opts r1) =
        .ok () →
      (cleanupRun opts method path r1 s).2 = none ∧
      (cleanupRun opts method path r1 s).1.closeRegistered = false ∧
      (cleanupRun opts method path r1 s).1.errorRegistered = false ∧
      cleanupRun opts method path r2 (cleanupRun opts method path r1 s).1 =
        ((cleanupRun opts method path r1 s).1, none)) := by
  obtain ⟨hfired, hreason⟩ :=
    cleanupRun_fires_live opts method path r1 s hab
  have hsecond := cleanupRun_of_aborted opts method path r2
    (cleanupRun opts method path r1 s).1 hfired
  refine ⟨hfired, hreason, ?_, ?_, ?_, ?_, ?_⟩
  · rw [hsecond]; exact hreason
  · rw [hsecond]
  · rw [hsecond]
  · rw [hsecond]
  · intro hlog
    have hfirst : cleanupRun opts method path r1 s =
        ({ (abortFn opts (some (tsOrStr r1 "")) s) with
            closeRegistered := false, errorRegistered := false }, none) := by
      simp only [cleanupRun, abortCall, abortFn, hab, Bool.false_eq_true,
        if_false]
      rw [show tsOrStr (some (tsOrStr r1 ""))
          (tsOrStr opts.reason "Request terminated") =
          cleanupReason opts r1 from rfl, hlog]
    refine ⟨by rw [hfirst], by rw [hfirst], by rw [hfirst], ?_⟩
    rw [hsecond, hfirst]

/-- Witness for C6 (amended): default options (logging disabled), a
fresh handle cleaned up with reason `x` and then with no reason. -/
theorem cleanup_idempotent_unless_logger_throws_witness :
    (initHandle.aborted = false ∧
      logAbort {} "cleanup" "GET" "/x" (cleanupReason {} (some "x")) =
        .ok ()) ∧
    ((cleanupRun {} "GET" "/x" (some "x") initHandle).2 = none ∧
      (cleanupRun {} "GET" "/x" (some "x") initHandle).1.closeRegistered =
        false ∧
      (cleanupRun {} "GET" "/x" (some "x") initHandle).1.errorRegistered =
        false ∧
      cleanupRun {} "GET" "/x" none
          (cleanupRun {} "GET" "/x" (some "x") initHandle).1 =
        ((cleanupRun {} "GET" "/x" (some "x") initHandle).1, none)) :=
  ⟨⟨rfl, rfl⟩,
    (cleanup_idempotent_unless_logger_throws {} "GET" "/x" (some "x") none
      initHandle rfl).2.2.2.2.2.2 rfl⟩

/-- Options that skip the lowercase-configured method name `options`. -/
def lowercaseSkipOptions : AborterOptions :=
  { skipMethods := some ["options"] }

/-- Counterexample for C7: with `skipMethods := ["options"]` and request
method `options`, the code does not exempt the request (it uppercases
only the request method and compares exactly), although a
case-insensitive method match exists, as the spec-modelled predicate
shows. -/
theorem shouldSkipRoute_case_counterexample :
    shouldSkipRoute (fun _ _ => false) "/x" "options"
        lowercaseSkipOptions = false ∧
    shouldSkipRouteSpec (fun _ _ => false) "/x" "options"
        lowercaseSkipOptions = true := by
  exact ⟨by decide, by decide⟩

/-- C7 (amended): a request is exempted iff some configured pattern
matches the path under regular-expression semantics, or `skipMethods`
contains the uppercased request method verbatim (case-insensitive only
in the request's casing, exact for configured names); and `intercept`
attaches a handle exactly when the request is not exempted. -/
theorem shouldSkipRoute_characterization (rmatch : String → String → Bool)
    (path method : String) (opts : AborterOptions) :
    (shouldSkipRoute rmatch path method opts = true ↔
      ((∃ route ∈ opts.skipRoutes.getD [], rmatch path route = true) ∨
        jsToUpperCase method ∈ opts.skipMethods.getD [])) ∧
    interceptAttachesHandle rmatch path method opts =
      !(shouldSkipRoute rmatch path method opts) := by
  refine ⟨?_, rfl⟩
  simp only [shouldSkipRoute]
  split
  · next hany =>
      simp only [true_iff]
      exact Or.inl (by simpa [List.any_eq_true] using hany)
  · next hany =>
      split
      · next hmem =>
          simp only [true_iff]
          exact Or.inr (by simpa using hmem)
      · next hmem =>
          simp only [Bool.false_eq_true, false_iff]
          intro hcase
          rcases hcase with ⟨route, hin, hm⟩ | hup
          · exact hany (by simp only [List.any_eq_true]; exact ⟨route, hin, hm⟩)
          · exact hmem (by simpa using hup)

/-- Counterexample for C8: a `close` event on a fresh handle records
the reason string `Client disconnected`, which is not the
`client-disconnected` label the claim states. -/
theorem disconnect_reason_counterexample :
    (closeEvent {} initHandle).signalReason = some "Client disconnected" ∧
    "Client disconnected" ≠ "client-disconnected" :=
  ⟨rfl, by decide⟩

/-- C8 (amended): a `close` transport event on a registered, not yet
aborted handle fires it with reason `Client disconnected` (stored on
both the signal and the request), and the cancellation branch then
surfaces a `RequestTimeoutException` carrying that reason; on an
already-aborted handle the event is a no-op. -/
theorem disconnect_fires_handle (opts : AborterOptions) (s : HandleState)
    (hreg : s.closeRegistered = true) (hab : s.aborted = false) :
    (closeEvent opts s).aborted = true ∧
    (closeEvent opts s).signalReason = some "Client disconnected" ∧
    (closeEvent opts s).requestAbortReason = some "Client disconnected" ∧
    abortObservableError (closeEvent opts s) =
      .requestTimeoutException "Client disconnected" ∧
    (∀ s2 : HandleState, s2.aborted = true → closeEvent opts s2 = s2) := by
  refine ⟨?_, ?_, ?_, ?_, ?_⟩
  · simp [closeEvent, abortFn, hreg, hab]
  · simp [closeEvent, abortFn, tsOrStr, hreg, hab]
  · simp [closeEvent, abortFn, tsOrStr, hreg, hab]
  · simp [closeEvent, abortFn, abortObservableError, abortObservableReason,
      tsOrStr, hreg, hab]
  · intro s2 h2
    simp [closeEvent, abortFn, h2]

/-- Witness for C8: a fresh handle hit by a `close` event. -/
theorem disconnect_fires_handle_witness :
    (closeEvent {} initHandle).aborted = true ∧
    (closeEvent {} initHandle).signalReason = some "Client disconnected" ∧
    (closeEvent {} initHandle).requestAbortReason =
      some "Client disconnected" ∧
    abortObservableError (closeEvent {} initHandle) =
      .requestTimeoutException "Client disconnected" ∧
    (∀ s2 : HandleState, s2.aborted = true → closeEvent {} s2 = s2) :=
  disconnect_fires_handle {} initHandle rfl rfl

/-- Counterexample for C9: with logging enabled and a throwing custom
logger, `logAbort` propagates the logger's exception (there is no
try/catch around `this.options.logger(message)`), so the abort path
that called it crashes. -/
theorem logAbort_throw_counterexample :
    logAbort throwingLoggerOptions "cleanup" "GET" "/test"
        "Request terminated" = .error "logger failure" :=
  rfl

/-- C9 (amended): the logging step never throws when logging is
disabled or when no custom logger is configured (the framework logger
is used); only a throwing custom logger's exception propagates. -/
theorem logAbort_safe_without_custom_logger (opts : AborterOptions)
    (typ method path reason : String)
    (h : opts.enableLogging = false ∨ opts.logger = none) :
    logAbort opts typ method path reason = .ok () := by
  rcases h with h | h
  · simp [logAbort, h]
  · simp only [logAbort, h]
    split <;> rfl

/-- Witness for C9 (amended): default options log nothing and never
throw. -/
theorem logAbort_safe_witness :
    logAbort {} "timeout" "GET" "/x" "r" = .ok () :=
  logAbort_safe_without_custom_logger {} "timeout" "GET" "/x" "r" (Or.inl rfl)

/-- C10: the budget validation of `withAbort` is evaluated before the
already-aborted short-circuit — even on an aborted signal, an
operation timeout exceeding the (positive) request timeout throws the
configuration error rather than rejecting with an `AbortError`. -/
theorem withAbort_validation_precedes_abort_check (sig : GuardSignal)
    (o : WithAbortOptions) (t r : Int) (hab : sig.aborted = true)
    (ht : o.timeout = some t) (hr : sig.requestTimeout = some r)
    (hrpos : 0 < r) (hgt : r < t) :
    withAbort (some sig) (some o) = .configError (configErrorMessage t r) :=
  withAbort_configError_of sig o t r ht hr hrpos hgt

/-- Witness for C10: an aborted signal with request timeout 1000ms and
operation timeout 2000ms still yields the configuration error. -/
theorem withAbort_validation_precedes_abort_check_witness :
    withAbort (some abortedCappedSig) (some bigOpOptions) =
      .configError (configErrorMessage 2000 1000) :=
  withAbort_validation_precedes_abort_check abortedCappedSig bigOpOptions
    2000 1000 rfl rfl rfl (by decide) (by decide)
